import Mathlib

set_option maxRecDepth 100000

/-!
A shallow embedding of the `trustme` library (`src/trustme/__init__.py`):
a test-oriented X.509 certificate-authority / leaf-certificate issuer.

Modelling conventions:
* Python `int` is `Int`; byte strings are `List Nat`; Python `str` is `String`
  (text processing is done on `List Char` with structural recursion so that
  every definition evaluates inside the kernel).
* Randomness (key generation seeds, `random_text()`, `x509.random_serial_number()`)
  is passed explicitly through an `Entropy` record, so every operation is a
  deterministic Lean function of its inputs.
* The cryptographic boundary capabilities (key generation, SHA-256 signing,
  subject-key-identifier derivation, PEM encoding) are modelled as executable
  record constructions: a private key is `(key type, seed)`, its
  subject-key-identifier digest is modelled by the public key itself, a signed
  certificate records the signing key and hash, and PEM encoding is a concrete
  structural serialization to `List Nat`.
* Fallible Python code returns `Except PyError`; `ValueError` raised by
  `ipaddress` parsing and caught inside the classifier is modelled by `Option`.
-/

deriving instance DecidableEq for Except

/-- Kinds of Python exceptions the modelled code can raise, following the
spec taxonomy: validation/domain errors (`ValueError`), `TypeError`,
IDNA encoding errors (`idna.IDNAError`), and
`cryptography.x509.ExtensionNotFound`. -/
inductive PyError where
  | valueError (msg : String)
  | typeError (msg : String)
  | idnaError (msg : String)
  | extensionNotFound (msg : String)
deriving DecidableEq

/-- A dynamically typed Python value, used where the source accepts arbitrary
objects and performs an `isinstance` check (`_identity_string_to_x509`). -/
inductive PyValue where
  | str (s : String)
  | bytes (b : List Nat)
  | intVal (n : Int)
  | noneVal
deriving DecidableEq

/-- Python `str.split(sep)` for a single-character separator, on char lists. -/
def splitOnChar (sep : Char) : List Char → List (List Char)
  | [] => [[]]
  | c :: cs =>
    let r := splitOnChar sep cs
    if c = sep then [] :: r
    else
      match r with
      | [] => [[c]]
      | h :: t => (c :: h) :: t

/-! ## `ipaddress` parsing model

Embeds the string-parsing fragment of CPython `Lib/ipaddress.py` used by the
classifier: `ip_address` (IPv4 then IPv6, with optional IPv6 scope id) and
`ip_network` (strict, prefix either decimal or netmask/hostmask form). -/

/-- Numeric value of a decimal digit list. -/
def decValOf (cs : List Char) : Nat :=
  cs.foldl (fun a c => 10 * a + (c.toNat - 48)) 0

/-- Is `c` an ASCII hex digit (as accepted by `int(x, 16)` via `_HEX_DIGITS`)? -/
def isHexDigitChar (c : Char) : Bool :=
  c.isDigit || (('a' ≤ c) && (c ≤ 'f')) || (('A' ≤ c) && (c ≤ 'F'))

/-- Numeric value of one hex digit. -/
def hexDigitVal (c : Char) : Nat :=
  if c.isDigit then c.toNat - 48
  else if ('a' ≤ c) && (c ≤ 'f') then c.toNat - 97 + 10
  else c.toNat - 65 + 10

/-- Numeric value of a hex digit list. -/
def hexValOf (cs : List Char) : Nat :=
  cs.foldl (fun a c => 16 * a + hexDigitVal c) 0

/-- `IPv4Address._parse_octet`: nonempty, ASCII digits only, at most 3 chars,
no leading zero, value at most 255. -/
def _parse_octet (octet_str : List Char) : Option Nat :=
  if octet_str.length = 0 then none
  else if !octet_str.all Char.isDigit then none
  else if octet_str.length > 3 then none
  else if octet_str.headD '1' = '0' ∧ octet_str.length ≠ 1 then none
  else
    let v := decValOf octet_str
    if v > 255 then none else some v

/-- `IPv4Address._ip_int_from_string`: exactly four octets joined by dots. -/
def ipv4_int_from_list (s : List Char) : Option Nat :=
  let octets := splitOnChar '.' s
  if octets.length ≠ 4 then none
  else
    match octets.mapM _parse_octet with
    | some l => some (l.foldl (fun a v => 256 * a + v) 0)
    | none => none

/-- `IPv6Address._parse_hextet`: hex digits only, between 1 and 4 of them. -/
def _parse_hextet (s : List Char) : Option Nat :=
  if !s.all isHexDigitChar then none
  else if s.length > 4 then none
  else if s.length = 0 then none
  else some (hexValOf s)

/-- Fold a list of 16-bit hextet values into an integer, big-endian. -/
def hextetsFold (init : Nat) (vs : List Nat) : Nat :=
  vs.foldl (fun a v => a * 65536 + v) init

/-- `IPv6Address._ip_int_from_string`: colon-separated hextets, at most one
`::` run, optional embedded dotted-quad IPv4 in the last part
(re-rendered as two hextets, Python `'%x' % v`). -/
def ipv6_int_from_list (ip_str : List Char) : Option Nat :=
  if ip_str.length = 0 then none
  else if ip_str.length > 45 then none
  else
    let parts0 := splitOnChar ':' ip_str
    if parts0.length < 3 then none
    else
      let lastPart := parts0.getLastD []
      let embedded : Option (List (List Char)) :=
        if lastPart.contains '.' then
          (ipv4_int_from_list lastPart).map fun v4 =>
            parts0.dropLast ++ [Nat.toDigits 16 ((v4 / 65536) % 65536), Nat.toDigits 16 (v4 % 65536)]
        else some parts0
      match embedded with
      | none => none
      | some parts =>
        if parts.length > 9 then none
        else
          let inner := (parts.drop 1).dropLast
          if (inner.filter (fun p => p = [])).length ≥ 2 then none
          else
            match List.findIdx? (fun p => p.isEmpty) inner with
            | some i =>
              let skip_index := i + 1
              let parts_hi0 := skip_index
              let parts_lo0 := parts.length - skip_index - 1
              let headEmpty := parts.headD ['x'] = []
              let lastEmpty := parts.getLastD ['x'] = []
              if headEmpty ∧ parts_hi0 - 1 ≠ 0 then none
              else if lastEmpty ∧ parts_lo0 - 1 ≠ 0 then none
              else
                let parts_hi := if headEmpty then parts_hi0 - 1 else parts_hi0
                let parts_lo := if lastEmpty then parts_lo0 - 1 else parts_lo0
                if 8 - (parts_hi + parts_lo) < 1 then none
                else
                  let parts_skipped := 8 - (parts_hi + parts_lo)
                  match (parts.take parts_hi).mapM _parse_hextet,
                        (parts.drop (parts.length - parts_lo)).mapM _parse_hextet with
                  | some his, some los =>
                    some (hextetsFold (hextetsFold 0 his * 65536 ^ parts_skipped) los)
                  | _, _ => none
            | none =>
              if parts.length ≠ 8 then none
              else if parts.headD ['x'] = [] then none
              else if parts.getLastD ['x'] = [] then none
              else
                match parts.mapM _parse_hextet with
                | some vs => some (hextetsFold 0 vs)
                | none => none

/-- `IPv6Address.__init__` address parsing including the optional `%scope_id`
(split at the first `%`; the scope id must be nonempty and `%`-free). -/
def ipv6_address_from_list (s : List Char) : Option Nat :=
  match splitOnChar '%' s with
  | [addr] => ipv6_int_from_list addr
  | addr :: scopeParts =>
    if scopeParts = [[]] ∨ scopeParts.length > 1 then none
    else ipv6_int_from_list addr
  | [] => none

/-- A parsed IP address (`ipaddress.IPv4Address` / `IPv6Address`). -/
inductive IPAddr where
  | v4 (addr : Nat)
  | v6 (addr : Nat)
deriving DecidableEq

/-- A parsed IP network (`ipaddress.IPv4Network` / `IPv6Network`):
network address and prefix length. -/
inductive IPNet where
  | v4 (network_address : Nat) (prefixlen : Nat)
  | v6 (network_address : Nat) (prefixlen : Nat)
deriving DecidableEq

/-- `ipaddress.ip_address`: try IPv4 first, then IPv6. -/
def ip_address (s : String) : Option IPAddr :=
  match ipv4_int_from_list s.toList with
  | some v => some (.v4 v)
  | none => (ipv6_address_from_list s.toList).map .v6

/-- The IPv4 netmask integer with `p` leading one bits (`p ≤ 32`). -/
def _netmask_int_v4 (p : Nat) : Nat := 4294967296 - 2 ^ (32 - p)

/-- `_prefix_from_ip_int` for IPv4: recover the prefix length from a netmask
integer of contiguous leading ones, if it has that form. -/
def _prefix_from_ip_int_v4 (m : Nat) : Option Nat :=
  (List.range 33).find? (fun p => m == _netmask_int_v4 p)

/-- The dotted-quad branch of `IPv4Network._make_netmask`: parse as an IPv4
address and accept a netmask (leading ones) or hostmask (trailing ones). -/
def _dotted_netmask_v4 (arg : List Char) : Option Nat :=
  match ipv4_int_from_list arg with
  | none => none
  | some m =>
    match _prefix_from_ip_int_v4 m with
    | some p => some p
    | none => _prefix_from_ip_int_v4 (m ^^^ 4294967295)

/-- `IPv4Network._make_netmask` on a string argument: a decimal prefix length
at most 32, else the dotted-quad netmask/hostmask forms. -/
def _make_netmask_v4 (arg : List Char) : Option Nat :=
  if arg.length ≠ 0 ∧ arg.all Char.isDigit then
    let p := decValOf arg
    if p ≤ 32 then some p
    else _dotted_netmask_v4 arg
  else _dotted_netmask_v4 arg

/-- `IPv4Network(s, strict=True)`: at most one `/`, address part a plain IPv4
address, prefix from `_make_netmask`, and no host bits set. -/
def ipv4_network_from_list (s : List Char) : Option (Nat × Nat) :=
  let addr := splitOnChar '/' s
  if addr.length > 2 then none
  else
    match ipv4_int_from_list (addr.headD []) with
    | none => none
    | some ip =>
      match (if addr.length = 2 then _make_netmask_v4 (addr.getLastD []) else some 32) with
      | none => none
      | some p =>
        if ip % 2 ^ (32 - p) ≠ 0 then none
        else some (ip, p)

/-- The IPv6 netmask integer with `p` leading one bits (`p ≤ 128`). -/
def _netmask_int_v6 (p : Nat) : Nat := 2 ^ 128 - 2 ^ (128 - p)

/-- `_prefix_from_ip_int` for IPv6. -/
def _prefix_from_ip_int_v6 (m : Nat) : Option Nat :=
  (List.range 129).find? (fun p => m == _netmask_int_v6 p)

/-- The address-form branch of `IPv6Network._make_netmask`. -/
def _dotted_netmask_v6 (arg : List Char) : Option Nat :=
  match ipv6_int_from_list arg with
  | none => none
  | some m =>
    match _prefix_from_ip_int_v6 m with
    | some p => some p
    | none => _prefix_from_ip_int_v6 (m ^^^ (2 ^ 128 - 1))

/-- `IPv6Network._make_netmask` on a string argument. -/
def _make_netmask_v6 (arg : List Char) : Option Nat :=
  if arg.length ≠ 0 ∧ arg.all Char.isDigit then
    let p := decValOf arg
    if p ≤ 128 then some p
    else _dotted_netmask_v6 arg
  else _dotted_netmask_v6 arg

/-- `IPv6Network(s, strict=True)`: no scope id is accepted in network form. -/
def ipv6_network_from_list (s : List Char) : Option (Nat × Nat) :=
  let addr := splitOnChar '/' s
  if addr.length > 2 then none
  else
    match ipv6_int_from_list (addr.headD []) with
    | none => none
    | some ip =>
      match (if addr.length = 2 then _make_netmask_v6 (addr.getLastD []) else some 128) with
      | none => none
      | some p =>
        if ip % 2 ^ (128 - p) ≠ 0 then none
        else some (ip, p)

/-- `ipaddress.ip_network` (with the default `strict=True`): try IPv4 first,
then IPv6. -/
def ip_network (s : String) : Option IPNet :=
  match ipv4_network_from_list s.toList with
  | some (a, p) => some (.v4 a p)
  | none => (ipv6_network_from_list s.toList).map fun ap => .v6 ap.1 ap.2

/-! ## `idna.encode(_, uts46=True)` model

The classifier delegates DNS-name encoding to the external `idna` library
(`idna.encode(s, uts46=True)`, an external collaborator per the spec).  The
model below is faithful on the ASCII fragment: the UTS-46 remap with
`std3_rules=False` maps ASCII uppercase to lowercase and keeps every other
ASCII codepoint; labels are split on `.`, checked (nonempty, at most 63
chars, hyphen placement, only lowercase letters / digits / hyphen are
PVALID), and joined.  Codepoints outside ASCII and already-punycoded
(`xn--`) labels are outside the modelled fragment and are mapped to an
encoding error; no theorem below exercises them. -/

/-- UTS-46 remap of one ASCII character (`std3_rules=False`). -/
def _uts46_remap_char_ascii (c : Char) : Option Char :=
  if c.toNat ≥ 128 then none
  else if ('A' ≤ c) && (c ≤ 'Z') then some (Char.ofNat (c.toNat + 32))
  else some c

/-- `idna.uts46_remap` on the ASCII fragment. -/
def uts46_remap (s : List Char) : Except String (List Char) :=
  match s.mapM _uts46_remap_char_ascii with
  | some cs => .ok cs
  | none => .error "codepoint outside the modelled ASCII fragment"

/-- Is `c` PVALID under IDNA2008, restricted to ASCII? -/
def _pvalid_ascii (c : Char) : Bool :=
  (('a' ≤ c) && (c ≤ 'z')) || c.isDigit || (c == '-')

/-- `idna.check_label` on an ASCII lowercase label. -/
def check_label_ascii (label : List Char) : Except String Unit :=
  if label.length = 0 then .error "Empty Label"
  else if (label.drop 2).take 2 = ['-', '-'] then
    .error "Label has disallowed hyphens in 3rd and 4th position"
  else if label.headD 'x' = '-' ∨ label.getLastD 'x' = '-' then
    .error "Label must not start or end with a hyphen"
  else if label.all _pvalid_ascii then .ok ()
  else .error "Codepoint not allowed at position"

/-- `idna.alabel` on an ASCII label: validate (via the lowercased label, as
`ulabel` does), enforce the 63-char bound, and return the label unchanged. -/
def alabel_ascii (label : List Char) : Except String (List Char) :=
  let lower := label.map fun c =>
    if ('A' ≤ c) && (c ≤ 'Z') then Char.ofNat (c.toNat + 32) else c
  if lower.take 4 = ['x', 'n', '-', '-'] then
    .error "punycode labels are outside the modelled fragment"
  else
    match check_label_ascii lower with
    | .error e => .error e
    | .ok _ =>
      if label.length > 63 then .error "Label too long"
      else .ok label

/-- Join char-list labels with `.`. -/
def joinDots : List (List Char) → List Char
  | [] => []
  | [l] => l
  | l :: ls => l ++ '.' :: joinDots ls

/-- `idna.encode(s, uts46=True)` on the modelled fragment, returning the
ASCII text of the encoded domain (the source decodes the bytes back to
text immediately). -/
def idna_encode_uts46 (s : String) : Except String String :=
  match uts46_remap s.toList with
  | .error e => .error e
  | .ok r =>
    let labels := splitOnChar '.' r
    if labels = [] ∨ labels = [[]] then .error "Empty domain"
    else
      let trailing_dot := labels.getLastD ['x'] = []
      let labels := if trailing_dot then labels.dropLast else labels
      match labels.mapM alabel_ascii with
      | .error e => .error e
      | .ok result =>
        let joined := joinDots result ++ (if trailing_dot then ['.'] else [])
        if joined.length > (if trailing_dot then 254 else 253) then .error "Domain too long"
        else .ok (String.mk joined)

/-! ## Identity classification (`_identity_string_to_x509`) -/

/-- The payload of an `x509.IPAddress` general name: the `cryptography` class
wraps either a parsed address or a parsed network. -/
inductive IPValue where
  | address (a : IPAddr)
  | network (n : IPNet)
deriving DecidableEq

/-- An `x509.GeneralName` as produced by the classifier. -/
inductive GeneralName where
  | RFC822Name (value : String)
  | IPAddress (value : IPValue)
  | DNSName (value : String)
deriving DecidableEq

/-- `identity.startswith("*.")` together with `identity[2:]`: the remainder
after the two-character wildcard marker, when present. -/
def wildcardRest : List Char → Option (List Char)
  | '*' :: '.' :: rest => some rest
  | _ => none

/-- `_identity_string_to_x509`: reject non-strings with `TypeError`, then
classify with fixed precedence: email (contains `@`), IP address, IP
network, and finally DNS name with `*.`-wildcard-aware IDNA encoding. -/
def _identity_string_to_x509 (identity : PyValue) : Except PyError GeneralName :=
  match identity with
  | .str s =>
    if s.toList.contains '@' then .ok (.RFC822Name s)
    else
      match ip_address s with
      | some a => .ok (.IPAddress (.address a))
      | none =>
        match ip_network s with
        | some n => .ok (.IPAddress (.network n))
        | none =>
          match wildcardRest s.toList with
          | some rest =>
            match idna_encode_uts46 (String.mk rest) with
            | .ok alabel => .ok (.DNSName ("*." ++ alabel))
            | .error e => .error (.idnaError e)
          | none =>
            match idna_encode_uts46 s with
            | .ok alabel => .ok (.DNSName alabel)
            | .error e => .error (.idnaError e)
  | _ => .error (.typeError "identities must be str")


/-! ## X.509 data model (the `cryptography` boundary)

Only the structure the core manipulates is modelled: names, the extension
values trustme uses, and a certificate as the record of everything the
builder accumulated plus the signing key and hash recorded by `.sign`. -/

/-- The `x509.oid.NameOID` members trustme uses. -/
inductive NameOID where
  | ORGANIZATION_NAME
  | ORGANIZATIONAL_UNIT_NAME
  | COMMON_NAME
deriving DecidableEq

/-- `x509.NameAttribute`. -/
structure NameAttribute where
  oid : NameOID
  value : String
deriving DecidableEq

/-- `x509.Name`: an ordered attribute list. -/
structure X509Name where
  attributes : List NameAttribute
deriving DecidableEq

/-- `x509.oid.ExtendedKeyUsageOID` members trustme uses. -/
inductive EKUOid where
  | CLIENT_AUTH
  | SERVER_AUTH
  | CODE_SIGNING
deriving DecidableEq

/-- `KeyType` (trustme's key-algorithm selector). -/
inductive KeyType where
  | RSA
  | ECDSA
deriving DecidableEq

/-- A private key as the boundary capability returns it: the chosen
algorithm plus the entropy that generated it. -/
structure PrivateKey where
  key_type : KeyType
  seed : Nat
deriving DecidableEq

/-- The corresponding public key. -/
structure PublicKey where
  key_type : KeyType
  seed : Nat
deriving DecidableEq

/-- `KeyType._generate_key`, with the randomness made explicit. -/
def KeyType.generate_key (kt : KeyType) (seed : Nat) : PrivateKey :=
  PrivateKey.mk kt seed

/-- `private_key.public_key()`. -/
def PrivateKey.public_key (k : PrivateKey) : PublicKey :=
  PublicKey.mk k.key_type k.seed

/-- `x509.SubjectKeyIdentifier.from_public_key`: a deterministic digest of
the public key, modelled by the public key itself. -/
def ski_from_public_key (pk : PublicKey) : PublicKey := pk

/-- `x509.AuthorityKeyIdentifier.from_issuer_subject_key_identifier`: the
authority key identifier carries the issuer's subject-key-identifier
digest. -/
def aki_from_issuer_ski (ski_value : PublicKey) : PublicKey := ski_value

/-- The extension values trustme adds to certificates. -/
inductive ExtensionValue where
  | subjectKeyIdentifier (digest : PublicKey)
  | basicConstraints (ca : Bool) (path_length : Option Int)
  | authorityKeyIdentifier (key_identifier : PublicKey)
  | keyUsage (digital_signature content_commitment key_encipherment data_encipherment
      key_agreement key_cert_sign crl_sign encipher_only decipher_only : Bool)
  | subjectAlternativeName (general_names : List GeneralName)
  | extendedKeyUsage (usages : List EKUOid)
deriving DecidableEq

/-- An `x509.Extension`: a value plus its criticality flag. -/
structure Extension where
  value : ExtensionValue
  critical : Bool
deriving DecidableEq

/-- `datetime.datetime` restricted to the date fields trustme sets. -/
structure PyDatetime where
  year : Nat
  month : Nat
  day : Nat
deriving DecidableEq

/-- `DEFAULT_EXPIRY = datetime.datetime(3000, 1, 1)`. -/
def DEFAULT_EXPIRY : PyDatetime := PyDatetime.mk 3000 1 1

/-- `DEFAULT_NOT_BEFORE = datetime.datetime(2000, 1, 1)`. -/
def DEFAULT_NOT_BEFORE : PyDatetime := PyDatetime.mk 2000 1 1

/-- The hash algorithm passed to `.sign` (always SHA-256 in trustme). -/
inductive HashAlg where
  | SHA256
deriving DecidableEq

/-- A signed `x509.Certificate`: the builder state at `.sign` time plus the
signing key and hash algorithm. -/
structure Certificate where
  subject : X509Name
  issuer : X509Name
  public_key : PublicKey
  not_valid_before : PyDatetime
  not_valid_after : PyDatetime
  serial_number : Nat
  extensions : List Extension
  signature_key : PrivateKey
  signature_hash : HashAlg
deriving DecidableEq

/-- `x509.CertificateBuilder` state. -/
structure CertificateBuilder where
  subject : X509Name
  issuer : X509Name
  public_key : PublicKey
  not_valid_before : PyDatetime
  not_valid_after : PyDatetime
  serial_number : Nat
  extensions : List Extension
deriving DecidableEq

/-- `builder.add_extension(value, critical)`: appends in call order. -/
def CertificateBuilder.add_extension (b : CertificateBuilder) (v : ExtensionValue)
    (critical : Bool) : CertificateBuilder :=
  CertificateBuilder.mk b.subject b.issuer b.public_key b.not_valid_before b.not_valid_after
    b.serial_number (b.extensions ++ [Extension.mk v critical])

/-- `builder.sign(private_key, algorithm)`. -/
def CertificateBuilder.sign (b : CertificateBuilder) (private_key : PrivateKey)
    (algorithm : HashAlg) : Certificate :=
  Certificate.mk b.subject b.issuer b.public_key b.not_valid_before b.not_valid_after
    b.serial_number b.extensions private_key algorithm

/-- `certificate.extensions.get_extension_for_class(x509.SubjectKeyIdentifier)`:
the first subject-key-identifier extension value, if any. -/
def Certificate.get_subject_key_identifier (c : Certificate) : Option PublicKey :=
  c.extensions.findSome? fun e =>
    match e.value with
    | .subjectKeyIdentifier d => some d
    | _ => none

/-- The first authority-key-identifier extension of a certificate, if any
(used to state the linking invariant). -/
def Certificate.get_authority_key_identifier (c : Certificate) : Option PublicKey :=
  c.extensions.findSome? fun e =>
    match e.value with
    | .authorityKeyIdentifier d => some d
    | _ => none

/-- The first subject-alternative-name extension of a certificate together
with its criticality, if any. -/
def Certificate.get_subject_alternative_name (c : Certificate) :
    Option (List GeneralName × Bool) :=
  c.extensions.findSome? fun e =>
    match e.value with
    | .subjectAlternativeName gns => some (gns, e.critical)
    | _ => none

/-! ## Distinguished-name builder (`_name`) -/

/-- Modelled from the spec: the repository's `_version.py` (which provides
`__version__`) is not under `src/`; the spec only requires the organization
default to be "a library-identifying string" (`"trustme"` suffixed with a
version number). -/
def trustme_version : String := "1.0.0"

/-- Python `x or d` on an optional string: `None` and `""` are falsy. -/
def pyStrOr (x : Option String) (d : String) : String :=
  match x with
  | some s => if s = "" then d else s
  | none => d

/-- `_name(name, organization_name, common_name)`: organization (with the
library-identifying default), organizational unit, then the common name
only when one was passed. -/
def _name (name : String) (organization_name : Option String)
    (common_name : Option String) : X509Name :=
  let name_pieces :=
    [NameAttribute.mk .ORGANIZATION_NAME
        (pyStrOr organization_name ("trustme v" ++ trustme_version)),
      NameAttribute.mk .ORGANIZATIONAL_UNIT_NAME name]
  let name_pieces :=
    match common_name with
    | some cn => name_pieces ++ [NameAttribute.mk .COMMON_NAME cn]
    | none => name_pieces
  X509Name.mk name_pieces

/-! ## PEM serialization (boundary capability)

`certificate.public_bytes(Encoding.PEM)` and
`private_key.private_bytes(PEM, TraditionalOpenSSL, NoEncryption())` are
modelled by concrete structural serializations to byte lists. -/

/-- Length-prefixed string serialization. -/
def encStr (s : String) : List Nat :=
  s.length :: s.toList.map Char.toNat

/-- Integer serialization (sign tag then magnitude). -/
def encInt (i : Int) : List Nat :=
  match i with
  | .ofNat n => [0, n]
  | .negSucc n => [1, n]

def encBool (b : Bool) : List Nat := [if b then 1 else 0]

def encKeyType (kt : KeyType) : List Nat :=
  match kt with
  | .RSA => [0]
  | .ECDSA => [1]

def encPublicKey (pk : PublicKey) : List Nat :=
  encKeyType pk.key_type ++ [pk.seed]

def encPrivateKey (k : PrivateKey) : List Nat :=
  encKeyType k.key_type ++ [k.seed]

def encNameAttribute (a : NameAttribute) : List Nat :=
  (match a.oid with
    | .ORGANIZATION_NAME => [0]
    | .ORGANIZATIONAL_UNIT_NAME => [1]
    | .COMMON_NAME => [2]) ++ encStr a.value

def encX509Name (n : X509Name) : List Nat :=
  n.attributes.length :: (n.attributes.map encNameAttribute).flatten

def encGeneralName (g : GeneralName) : List Nat :=
  match g with
  | .RFC822Name v => 0 :: encStr v
  | .IPAddress (.address (.v4 a)) => [1, a]
  | .IPAddress (.address (.v6 a)) => [2, a]
  | .IPAddress (.network (.v4 a p)) => [3, a, p]
  | .IPAddress (.network (.v6 a p)) => [4, a, p]
  | .DNSName v => 5 :: encStr v

def encExtensionValue (v : ExtensionValue) : List Nat :=
  match v with
  | .subjectKeyIdentifier d => 0 :: encPublicKey d
  | .basicConstraints ca pl =>
    1 :: encBool ca ++ (match pl with | none => [0] | some i => 1 :: encInt i)
  | .authorityKeyIdentifier d => 2 :: encPublicKey d
  | .keyUsage a b c d e f g h i =>
    3 :: ([a, b, c, d, e, f, g, h, i].map fun x => if x then 1 else 0)
  | .subjectAlternativeName gns =>
    4 :: gns.length :: (gns.map encGeneralName).flatten
  | .extendedKeyUsage us =>
    5 :: us.length :: (us.map fun u =>
      match u with
      | .CLIENT_AUTH => 0
      | .SERVER_AUTH => 1
      | .CODE_SIGNING => 2)

def encExtension (e : Extension) : List Nat :=
  encExtensionValue e.value ++ encBool e.critical

def encPyDatetime (d : PyDatetime) : List Nat := [d.year, d.month, d.day]

/-- `certificate.public_bytes(Encoding.PEM)`. -/
def cert_public_bytes_pem (c : Certificate) : List Nat :=
  encX509Name c.subject ++ encX509Name c.issuer ++ encPublicKey c.public_key ++
    encPyDatetime c.not_valid_before ++ encPyDatetime c.not_valid_after ++
    [c.serial_number] ++ c.extensions.length :: (c.extensions.map encExtension).flatten ++
    encPrivateKey c.signature_key

/-- `private_key.private_bytes(Encoding.PEM, TraditionalOpenSSL, NoEncryption())`. -/
def private_key_bytes_pem (k : PrivateKey) : List Nat :=
  77 :: encPrivateKey k

/-! ## `_cert_builder_common` -/

/-- The explicit randomness consumed by one CA construction or one leaf
issuance: the key-generation seed, the `random_text()` suffix, and the
`x509.random_serial_number()` value. -/
structure Entropy where
  keySeed : Nat
  text : String
  serial : Nat
deriving DecidableEq

/-- `_cert_builder_common(subject, issuer, public_key, not_after, not_before)`
with the random serial number passed explicitly: sets names, key, validity
window (defaulting to the fixed constants), serial, and the non-critical
subject-key-identifier extension. -/
def _cert_builder_common (subject : X509Name) (issuer : X509Name)
    (public_key : PublicKey) (not_after : Option PyDatetime)
    (not_before : Option PyDatetime) (serial : Nat) : CertificateBuilder :=
  let na := not_after.getD DEFAULT_EXPIRY
  let nb := not_before.getD DEFAULT_NOT_BEFORE
  (CertificateBuilder.mk subject issuer public_key nb na serial []).add_extension
    (.subjectKeyIdentifier (ski_from_public_key public_key)) false

/-- `x509.BasicConstraints(ca, path_length)`: the `cryptography` constructor
rejects a path length on a non-CA certificate with `ValueError`, and a
negative (or non-integer) path length with `TypeError`. -/
def mkBasicConstraints (ca : Bool) (path_length : Option Int) :
    Except PyError ExtensionValue :=
  match path_length with
  | none => .ok (.basicConstraints ca none)
  | some pl =>
    if ca = false then .error (.valueError "path_length must be None when ca is False")
    else if pl < 0 then
      .error (.typeError "path_length must be a non-negative integer or None")
    else .ok (.basicConstraints ca (some pl))

/-! ## The certificate authority (`CA`) -/

/-- A `CA` object: optional parent reference, private key, stored remaining
path length (`_path_length`, a plain Python `int`), and the certificate
produced at construction. -/
inductive CA where
  | mk (parent_cert : Option CA) (private_key : PrivateKey) (path_length : Int)
      (certificate : Certificate)

/-- `ca.parent_cert`. -/
def CA.parent_cert : CA → Option CA
  | .mk p _ _ _ => p

/-- `ca._private_key`. -/
def CA.private_key : CA → PrivateKey
  | .mk _ k _ _ => k

/-- `ca._path_length`. -/
def CA.path_length : CA → Int
  | .mk _ _ l _ => l

/-- `ca._certificate`. -/
def CA.certificate : CA → Certificate
  | .mk _ _ _ c => c

/-- `CA.__init__(parent_cert, path_length, organization_name,
organization_unit_name, key_type)`, with the construction's randomness
passed as `ent`.  Fails with `ExtensionNotFound` if a parent is given whose
certificate lacks a subject-key-identifier extension (the
`get_extension_for_class` lookup in the source), and with the
`x509.BasicConstraints` `TypeError` if the path length is negative. -/
def CA.init (parent_cert : Option CA) (path_length : Int) (organization_name : Option String)
    (organization_unit_name : Option String) (key_type : KeyType) (ent : Entropy) :
    Except PyError CA :=
  let private_key := key_type.generate_key ent.keySeed
  let name := _name (pyStrOr organization_unit_name ("Testing CA #" ++ ent.text))
    organization_name none
  let info : Except PyError (X509Name × PrivateKey × Option PublicKey) :=
    match parent_cert with
    | some parent =>
      match parent.certificate.get_subject_key_identifier with
      | some ski_value =>
        .ok (parent.certificate.subject, parent.private_key,
          some (aki_from_issuer_ski ski_value))
      | none => .error (.extensionNotFound "No SubjectKeyIdentifier extension was found")
    | none => .ok (name, private_key, none)
  match info with
  | .error e => .error e
  | .ok (issuer, sign_key, aki) =>
    match mkBasicConstraints true (some path_length) with
    | .error e => .error e
    | .ok bc =>
      let cert_builder := (_cert_builder_common name issuer private_key.public_key none none
        ent.serial).add_extension bc true
      let cert_builder :=
        match aki with
        | some a => cert_builder.add_extension (.authorityKeyIdentifier a) false
        | none => cert_builder
      let certificate := (cert_builder.add_extension
        (.keyUsage true false false false false true true false false) true).sign
        sign_key .SHA256
      .ok (CA.mk parent_cert private_key path_length certificate)

/-- `CA.create_child_ca(key_type)`: `ValueError` when the stored path length
equals 0; otherwise a new CA with this CA as parent and path length
decremented by one. -/
def CA.create_child_ca (ca : CA) (key_type : KeyType) (ent : Entropy) : Except PyError CA :=
  if ca.path_length = 0 then .error (.valueError "Can't create child CA: path length is 0")
  else CA.init (some ca) (ca.path_length - 1) none none key_type ent

/-- The chain-collection loop of `issue_cert`: starting at the issuing CA,
while the current CA has a parent, append its PEM-encoded certificate and
move to the parent. -/
def CA.chain_to_ca : CA → List (List Nat)
  | .mk none _ _ _ => []
  | .mk (some parent) _ _ certificate =>
    cert_public_bytes_pem certificate :: parent.chain_to_ca

/-- The SAN list comprehension
`[_identity_string_to_x509(ident) for ident in identities]`: classify each
identity left to right, propagating the first raised error. -/
def mapExcept (f : PyValue → Except PyError GeneralName) :
    List PyValue → Except PyError (List GeneralName)
  | [] => .ok []
  | x :: xs =>
    match f x with
    | .error e => .error e
    | .ok y =>
      match mapExcept f xs with
      | .error e => .error e
      | .ok ys => .ok (y :: ys)

/-- The data `issue_cert` computes before wrapping it in a `LeafCert`:
the fresh leaf key, the signed leaf certificate, and the collected chain. -/
structure LeafParts where
  key : PrivateKey
  cert : Certificate
  chain_to_ca : List (List Nat)
deriving DecidableEq

/-- The body of `CA.issue_cert(*identities, common_name, organization_name,
organization_unit_name, not_before, not_after, key_type)` up to the
`LeafCert` wrapping: validation, fresh keypair, authority-key-identifier
lookup, the six extensions in source order, signing with the CA's key, and
chain collection. -/
def CA.issue_cert_parts (ca : CA) (identities : List PyValue) (common_name : Option String)
    (organization_name : Option String) (organization_unit_name : Option String)
    (not_before : Option PyDatetime) (not_after : Option PyDatetime)
    (key_type : KeyType) (ent : Entropy) : Except PyError LeafParts :=
  if identities = [] ∧ common_name = none then
    .error (.valueError "Must specify at least one identity or common name")
  else
    let key := key_type.generate_key ent.keySeed
    match ca.certificate.get_subject_key_identifier with
    | none => .error (.extensionNotFound "No SubjectKeyIdentifier extension was found")
    | some ski_value =>
      let aki := aki_from_issuer_ski ski_value
      match mkBasicConstraints false none with
      | .error e => .error e
      | .ok leaf_bc =>
        match mapExcept _identity_string_to_x509 identities with
        | .error e => .error e
        | .ok san_entries =>
          let cert := (((((_cert_builder_common
              (_name (pyStrOr organization_unit_name ("Testing cert #" ++ ent.text))
                organization_name common_name)
              ca.certificate.subject key.public_key not_after not_before
              ent.serial).add_extension
            leaf_bc true).add_extension
            (.authorityKeyIdentifier aki) false).add_extension
            (.subjectAlternativeName san_entries) true).add_extension
            (.keyUsage true false true false false false false false false) true).add_extension
            (.extendedKeyUsage [.CLIENT_AUTH, .SERVER_AUTH, .CODE_SIGNING]) true
            |>.sign ca.private_key .SHA256
          .ok (LeafParts.mk key cert ca.chain_to_ca)

/-- `Blob`: trustme's immutable byte-container wrapper. -/
structure Blob where
  data : List Nat
deriving DecidableEq

/-- `blob.bytes()`. -/
def Blob.bytes (b : Blob) : List Nat := b.data

/-- `LeafCert`: private key PEM, the chain list headed by the leaf's own
certificate, and the precomputed key+chain concatenation. -/
structure LeafCert where
  private_key_pem : Blob
  cert_chain_pems : List Blob
  private_key_and_cert_chain_pem : Blob
deriving DecidableEq

/-- `LeafCert.__init__(private_key_pem, server_cert_pem, chain_to_ca)`. -/
def LeafCert.init (private_key_pem : List Nat) (server_cert_pem : List Nat)
    (chain_to_ca : List (List Nat)) : LeafCert :=
  LeafCert.mk (Blob.mk private_key_pem)
    (([server_cert_pem] ++ chain_to_ca).map Blob.mk)
    (Blob.mk (private_key_pem ++ server_cert_pem ++ chain_to_ca.flatten))

/-- `CA.issue_cert`: the computed parts wrapped into a `LeafCert`, with the
key and leaf certificate PEM-encoded exactly as the source's `return`. -/
def CA.issue_cert (ca : CA) (identities : List PyValue) (common_name : Option String)
    (organization_name : Option String) (organization_unit_name : Option String)
    (not_before : Option PyDatetime) (not_after : Option PyDatetime)
    (key_type : KeyType) (ent : Entropy) : Except PyError LeafCert :=
  match ca.issue_cert_parts identities common_name organization_name organization_unit_name
      not_before not_after key_type ent with
  | .error e => .error e
  | .ok parts =>
    .ok (LeafCert.init (private_key_bytes_pem parts.key) (cert_public_bytes_pem parts.cert)
      parts.chain_to_ca)

/-- `CA.from_pem(cert_bytes, private_key_bytes)`: constructs a fresh default
CA (`cls()`, consuming `ent`), then overwrites `parent_cert` with `None`
and the certificate and private key with the imported values, leaving the
freshly constructed `_path_length` untouched.  The PEM loaders
(`x509.load_pem_x509_certificate`, `load_pem_private_key`) are boundary
capabilities; they are modelled by passing the decoded certificate and key
directly. -/
def CA.from_pem (certificate : Certificate) (private_key : PrivateKey) (ent : Entropy) :
    Except PyError CA :=
  match CA.init none 9 none none KeyType.ECDSA ent with
  | .error e => .error e
  | .ok ca => .ok (CA.mk none private_key ca.path_length certificate)

/-! ## Concrete objects used by witnesses -/

/-- A minimal certificate, used only as the default of `Except` extraction. -/
def fallbackCert : Certificate :=
  Certificate.mk (X509Name.mk []) (X509Name.mk []) (PublicKey.mk .ECDSA 0)
    DEFAULT_NOT_BEFORE DEFAULT_EXPIRY 0 [] (PrivateKey.mk .ECDSA 0) .SHA256

/-- Extract the `CA` from a successful construction. -/
def exCA (r : Except PyError CA) : CA :=
  match r with
  | .ok ca => ca
  | .error _ => CA.mk none (PrivateKey.mk .ECDSA 0) 0 fallbackCert

/-- Extract the `LeafParts` from a successful issuance. -/
def exLeafParts (r : Except PyError LeafParts) : LeafParts :=
  match r with
  | .ok p => p
  | .error _ => LeafParts.mk (PrivateKey.mk .ECDSA 0) fallbackCert []

/-- Extract the `LeafCert` from a successful issuance. -/
def exLeafCert (r : Except PyError LeafCert) : LeafCert :=
  match r with
  | .ok l => l
  | .error _ => LeafCert.init [] [] []

def entA : Entropy := Entropy.mk 0 "aaa" 10
def entB : Entropy := Entropy.mk 1 "bbb" 11
def entC : Entropy := Entropy.mk 2 "ccc" 12
def entD : Entropy := Entropy.mk 3 "ddd" 13

/-- A concrete root CA (path length 9). -/
def rootCA : CA := exCA (CA.init none 9 none none .ECDSA entA)

/-- A concrete intermediate CA (child of `rootCA`, path length 8). -/
def childCA1 : CA := exCA (rootCA.create_child_ca .ECDSA entB)

/-- A concrete leaf-issuing CA (child of `childCA1`, path length 7). -/
def childCA2 : CA := exCA (childCA1.create_child_ca .ECDSA entC)

/-- A concrete leaf certificate issued by the depth-3 hierarchy. -/
def leafCert0 : LeafCert :=
  exLeafCert (childCA2.issue_cert [.str "example.com"] none none none none none .ECDSA entD)

example : _identity_string_to_x509 (.str "127.0.0.1") =
    .ok (.IPAddress (.address (.v4 2130706433))) := by decide
example : _identity_string_to_x509 (.str "10.0.0.0/8") =
    .ok (.IPAddress (.network (.v4 167772160 8))) := by decide
example : _identity_string_to_x509 (.str "a@b.com") = .ok (.RFC822Name "a@b.com") := by decide
example : _identity_string_to_x509 (.str "*.example.com") =
    .ok (.DNSName "*.example.com") := by decide
example : _identity_string_to_x509 (.str "example.com") = .ok (.DNSName "example.com") := by decide
example : _identity_string_to_x509 (.str "::1") =
    .ok (.IPAddress (.address (.v6 1))) := by decide
example : _identity_string_to_x509 (.str "2001::/16") =
    .ok (.IPAddress (.network (.v6 (8193 * 65536 ^ 7) 16))) := by decide
example : ip_network "127.0.0.1" = some (.v4 2130706433 32) := by decide
example : ip_address "10.0.0.0/8" = none := by decide
example : ip_address "1.2.3.04" = none := by decide
example : ip_network "10.0.0.1/8" = none := by decide
example : ip_network "10.0.0.0/255.0.0.0" = some (.v4 167772160 8) := by decide
example : ip_address "1:2:3:4:5:6:7:8" =
    some (.v6 (hextetsFold 0 [1, 2, 3, 4, 5, 6, 7, 8])) := by decide
example : ip_address "::ffff:1.2.3.4" =
    some (.v6 (65535 * 65536 ^ 2 + 16909060)) := by decide
example : _identity_string_to_x509 (.bytes [1, 2]) =
    .error (.typeError "identities must be str") := by decide
example : _identity_string_to_x509 (.str "Example.COM") = .ok (.DNSName "example.com") := by decide

example : rootCA.path_length = 9 := by decide
example : childCA1.path_length = 8 := by decide
example : childCA2.path_length = 7 := by decide
example : (exLeafParts (childCA2.issue_cert_parts [.str "example.com"] none none none none
    none .ECDSA entD)).chain_to_ca =
    [cert_public_bytes_pem childCA2.certificate, cert_public_bytes_pem childCA1.certificate] := by
  decide
example : cert_public_bytes_pem rootCA.certificate ∉
    (exLeafParts (childCA2.issue_cert_parts [.str "example.com"] none none none none
      none .ECDSA entD)).chain_to_ca := by decide
example : (exLeafParts (rootCA.issue_cert_parts [.str "example.com"] none none none none
    none .ECDSA entD)).chain_to_ca = [] := by decide

/-! ## Construction equations -/

/-- `x509.BasicConstraints(ca=True, path_length=pl)` raises the `TypeError`
for a negative path length. -/
theorem mkBasicConstraints_true_neg (pl : Int) (hpl : pl < 0) :
    mkBasicConstraints true (some pl) =
      .error (.typeError "path_length must be a non-negative integer or None") := by
  simp [mkBasicConstraints, hpl]

/-- `x509.BasicConstraints(ca=True, path_length=pl)` succeeds for a
non-negative path length. -/
theorem mkBasicConstraints_true_nonneg (pl : Int) (hpl : ¬ pl < 0) :
    mkBasicConstraints true (some pl) = .ok (.basicConstraints true (some pl)) := by
  simp [mkBasicConstraints, hpl]

/-- `CA.__init__` with no parent and a non-negative path length: succeeds,
producing a self-signed certificate with no authority-key-identifier
extension. -/
theorem CA.init_none_eq (pl : Int) (org ou : Option String) (kt : KeyType) (ent : Entropy)
    (hpl : ¬ pl < 0) :
    CA.init none pl org ou kt ent =
      .ok (CA.mk none (kt.generate_key ent.keySeed) pl
        ((((_cert_builder_common (_name (pyStrOr ou ("Testing CA #" ++ ent.text)) org none)
              (_name (pyStrOr ou ("Testing CA #" ++ ent.text)) org none)
              (kt.generate_key ent.keySeed).public_key none none ent.serial).add_extension
            (.basicConstraints true (some pl)) true).add_extension
            (.keyUsage true false false false false true true false false) true).sign
          (kt.generate_key ent.keySeed) .SHA256)) := by
  simp only [CA.init, mkBasicConstraints_true_nonneg pl hpl]

/-- `CA.__init__` with a parent whose certificate carries a
subject-key-identifier, and a non-negative path length: succeeds, signing
with the parent's key, using the parent's subject as issuer, and adding the
derived authority-key-identifier. -/
theorem CA.init_parent_eq (parent : CA) (pl : Int) (org ou : Option String) (kt : KeyType)
    (ent : Entropy) (sk : PublicKey)
    (hski : parent.certificate.get_subject_key_identifier = some sk) (hpl : ¬ pl < 0) :
    CA.init (some parent) pl org ou kt ent =
      .ok (CA.mk (some parent) (kt.generate_key ent.keySeed) pl
        (((((_cert_builder_common (_name (pyStrOr ou ("Testing CA #" ++ ent.text)) org none)
              parent.certificate.subject
              (kt.generate_key ent.keySeed).public_key none none ent.serial).add_extension
            (.basicConstraints true (some pl)) true).add_extension
            (.authorityKeyIdentifier (aki_from_issuer_ski sk)) false).add_extension
            (.keyUsage true false false false false true true false false) true).sign
          parent.private_key .SHA256)) := by
  simp only [CA.init, hski, mkBasicConstraints_true_nonneg pl hpl]

/-- `CA.__init__` fails with the `BasicConstraints` `TypeError` whenever the
path length is negative and the parent lookup did not fail first. -/
theorem CA.init_neg_eq (parent : CA) (pl : Int) (org ou : Option String) (kt : KeyType)
    (ent : Entropy) (sk : PublicKey)
    (hski : parent.certificate.get_subject_key_identifier = some sk) (hpl : pl < 0) :
    CA.init (some parent) pl org ou kt ent =
      .error (.typeError "path_length must be a non-negative integer or None") := by
  simp only [CA.init, hski, mkBasicConstraints_true_neg pl hpl]

/-- Every certificate produced by `CA.__init__` has the subject-key-identifier
derived from the fresh public key as its first extension. -/
theorem CA.init_has_ski (parent : Option CA) (pl : Int) (org ou : Option String) (kt : KeyType)
    (ent : Entropy) (ca : CA) (h : CA.init parent pl org ou kt ent = .ok ca) :
    ca.certificate.get_subject_key_identifier =
      some (ski_from_public_key (kt.generate_key ent.keySeed).public_key) := by
  cases parent with
  | none =>
    by_cases hpl : pl < 0
    · simp only [CA.init, mkBasicConstraints_true_neg pl hpl] at h
      exact Except.noConfusion h
    · rw [CA.init_none_eq pl org ou kt ent hpl] at h
      injection h with h
      subst h
      rfl
  | some p =>
    cases hski : p.certificate.get_subject_key_identifier with
    | none =>
      simp only [CA.init, hski] at h
      exact Except.noConfusion h
    | some sk =>
      by_cases hpl : pl < 0
      · rw [CA.init_neg_eq p pl org ou kt ent sk hski hpl] at h
        exact Except.noConfusion h
      · rw [CA.init_parent_eq p pl org ou kt ent sk hski hpl] at h
        injection h with h
        subst h
        rfl

/-- C3: for every CA whose remaining path length is strictly greater than 0
(and whose certificate carries the subject-key-identifier extension every
library-constructed CA has), `create_child_ca` succeeds and returns a new CA
whose parent is this CA and whose path length is exactly one less; whenever
the path length is 0 it fails with the `ValueError` domain error. -/
theorem create_child_ca_decrements (ca : CA) (kt : KeyType) (ent : Entropy) (sk : PublicKey)
    (hski : ca.certificate.get_subject_key_identifier = some sk) :
    (0 < ca.path_length →
      ∃ child, ca.create_child_ca kt ent = .ok child ∧ child.parent_cert = some ca ∧
        child.path_length = ca.path_length - 1) ∧
    (ca.path_length = 0 →
      ca.create_child_ca kt ent =
        .error (.valueError "Can't create child CA: path length is 0")) := by
  constructor
  · intro hpos
    have hne : ¬ ca.path_length = 0 := by omega
    rw [CA.create_child_ca, if_neg hne,
      CA.init_parent_eq ca (ca.path_length - 1) none none kt ent sk hski (by omega)]
    exact ⟨_, rfl, rfl, rfl⟩
  · intro h0
    rw [CA.create_child_ca, if_pos h0]

/-- Witness for C3: the concrete root CA (path length 9) yields a child of
path length 8 whose parent is the root. -/
theorem create_child_ca_decrements_witness :
    ∃ child, rootCA.create_child_ca .ECDSA entB = .ok child ∧
      child.parent_cert = some rootCA ∧ child.path_length = rootCA.path_length - 1 :=
  (create_child_ca_decrements rootCA .ECDSA entB (PublicKey.mk .ECDSA 0) (by decide)).1
    (by decide)

/-- C10 counterexample: the claim's negative-path-length cases are false of
the program — constructing a CA with path length −5 fails with the
`BasicConstraints` `TypeError` (so no constructor produces a negative
stored path length), and `create_child_ca` on a CA object forged to hold
path length −5 fails with the same `TypeError` when constructing the child,
instead of succeeding. -/
theorem create_child_ca_negative_counterexample :
    CA.init none (-5) none none .ECDSA entA =
      .error (.typeError "path_length must be a non-negative integer or None") ∧
    (CA.mk none (PrivateKey.mk .ECDSA 0) (-5) rootCA.certificate).create_child_ca .ECDSA
        entB =
      .error (.typeError "path_length must be a non-negative integer or None") :=
  ⟨rfl, rfl⟩

/-- C10 (amended): `create_child_ca` raises its domain error (`ValueError`)
only when the stored path length equals exactly 0, and for every strictly
positive value it succeeds with a child whose path length is one less;
negative path lengths are rejected not by `create_child_ca`'s own check but
by `x509.BasicConstraints` inside `CA.__init__`: constructing a CA with a
negative path length fails with its `TypeError`, and `create_child_ca` from
a CA holding a negative stored path length fails with that same `TypeError`
while constructing the child — never with the domain error. -/
theorem create_child_ca_only_zero_domain_error (ca : CA) (kt : KeyType) (ent : Entropy)
    (sk : PublicKey) (hski : ca.certificate.get_subject_key_identifier = some sk) :
    (0 < ca.path_length →
      ∃ child, ca.create_child_ca kt ent = .ok child ∧ child.parent_cert = some ca ∧
        child.path_length = ca.path_length - 1) ∧
    (ca.path_length = 0 →
      ca.create_child_ca kt ent =
        .error (.valueError "Can't create child CA: path length is 0")) ∧
    (ca.path_length < 0 →
      ca.create_child_ca kt ent =
        .error (.typeError "path_length must be a non-negative integer or None")) ∧
    (∀ pl : Int, pl < 0 →
      CA.init none pl none none kt ent =
        .error (.typeError "path_length must be a non-negative integer or None")) := by
  refine ⟨?_, ?_, ?_, ?_⟩
  · intro hpos
    have hne : ¬ ca.path_length = 0 := by omega
    rw [CA.create_child_ca, if_neg hne,
      CA.init_parent_eq ca (ca.path_length - 1) none none kt ent sk hski (by omega)]
    exact ⟨_, rfl, rfl, rfl⟩
  · intro h0
    rw [CA.create_child_ca, if_pos h0]
  · intro hneg
    have hne : ¬ ca.path_length = 0 := by omega
    rw [CA.create_child_ca, if_neg hne,
      CA.init_neg_eq ca (ca.path_length - 1) none none kt ent sk hski (by omega)]
  · intro pl hneg
    simp only [CA.init, mkBasicConstraints_true_neg pl hneg]

/-- Witness for C10: the concrete root CA (path length 9) yields a child of
path length 8, and constructing a CA with path length −7 fails with the
`BasicConstraints` `TypeError`. -/
theorem create_child_ca_only_zero_domain_error_witness :
    (∃ child, rootCA.create_child_ca .ECDSA entB = .ok child ∧
      child.parent_cert = some rootCA ∧ child.path_length = rootCA.path_length - 1) ∧
    CA.init none (-7) none none .ECDSA entA =
      .error (.typeError "path_length must be a non-negative integer or None") :=
  ⟨(create_child_ca_only_zero_domain_error rootCA .ECDSA entB (PublicKey.mk .ECDSA 0)
      (by decide)).1 (by decide),
    (create_child_ca_only_zero_domain_error rootCA .ECDSA entA (PublicKey.mk .ECDSA 0)
      (by decide)).2.2.2 (-7) (by decide)⟩

/-- C5: a freshly constructed CA with no parent is self-signed for every
key-type choice — issuer equals subject, the signing key is its own key,
and no authority-key-identifier extension is present; with a parent, the
issuer is the parent certificate's subject, the signing key is the parent's
private key, and the authority-key-identifier is derived from the parent
certificate's subject-key-identifier; in both cases the CA's own
subject-key-identifier is derived from its own fresh public key. -/
theorem ca_signing_invariant :
    (∀ (pl : Int) (org ou : Option String) (kt : KeyType) (ent : Entropy), 0 ≤ pl →
      ∃ ca, CA.init none pl org ou kt ent = .ok ca ∧
        ca.certificate.issuer = ca.certificate.subject ∧
        ca.certificate.signature_key = ca.private_key ∧
        ca.certificate.get_authority_key_identifier = none ∧
        ca.certificate.get_subject_key_identifier =
          some (ski_from_public_key ca.private_key.public_key)) ∧
    (∀ (parent : CA) (pl : Int) (org ou : Option String) (kt : KeyType) (ent : Entropy)
        (sk : PublicKey), parent.certificate.get_subject_key_identifier = some sk →
        0 ≤ pl →
      ∃ ca, CA.init (some parent) pl org ou kt ent = .ok ca ∧
        ca.certificate.issuer = parent.certificate.subject ∧
        ca.certificate.signature_key = parent.private_key ∧
        ca.certificate.get_authority_key_identifier = some (aki_from_issuer_ski sk) ∧
        ca.certificate.get_subject_key_identifier =
          some (ski_from_public_key ca.private_key.public_key)) := by
  constructor
  · intro pl org ou kt ent hpl
    rw [CA.init_none_eq pl org ou kt ent (by omega)]
    exact ⟨_, rfl, rfl, rfl, rfl, rfl⟩
  · intro parent pl org ou kt ent sk hski hpl
    rw [CA.init_parent_eq parent pl org ou kt ent sk hski (by omega)]
    exact ⟨_, rfl, rfl, rfl, rfl, rfl⟩

/-- Witness for C5: the parent-linking case at the concrete root CA. -/
theorem ca_signing_invariant_witness :
    ∃ ca, CA.init (some rootCA) 8 none none .ECDSA entB = .ok ca ∧
      ca.certificate.issuer = rootCA.certificate.subject ∧
      ca.certificate.signature_key = rootCA.private_key ∧
      ca.certificate.get_authority_key_identifier =
        some (aki_from_issuer_ski (PublicKey.mk .ECDSA 0)) ∧
      ca.certificate.get_subject_key_identifier =
        some (ski_from_public_key ca.private_key.public_key) :=
  ca_signing_invariant.2 rootCA 8 none none .ECDSA entB (PublicKey.mk .ECDSA 0) (by decide)
    (by decide)

/-- C1: chain collection walks from the issuing CA up through parent
references, appending each CA's PEM-encoded certificate and stopping
(without appending) at a CA with no parent; issuing from the third level of
a root → intermediate → leaf-issuing hierarchy therefore yields a chain of
exactly the leaf-issuing CA's certificate followed by the intermediate's,
whatever randomness was used; the root's certificate differs from both and
is never in the chain; issuing directly from the root yields an empty
chain. -/
theorem chain_collection (e1 e2 e3 e4 : Entropy) :
    (∀ (parent : CA) (k : PrivateKey) (pl : Int) (cert : Certificate),
      CA.chain_to_ca (.mk (some parent) k pl cert) =
        cert_public_bytes_pem cert :: parent.chain_to_ca) ∧
    (∀ (k : PrivateKey) (pl : Int) (cert : Certificate),
      CA.chain_to_ca (.mk none k pl cert) = []) ∧
    (∃ root ca1 ca2 parts,
      CA.init none 9 none none .ECDSA e1 = .ok root ∧
      root.create_child_ca .ECDSA e2 = .ok ca1 ∧
      ca1.create_child_ca .ECDSA e3 = .ok ca2 ∧
      ca2.issue_cert_parts [.str "example.com"] none none none none none .ECDSA e4 =
        .ok parts ∧
      parts.chain_to_ca =
        [cert_public_bytes_pem ca2.certificate, cert_public_bytes_pem ca1.certificate] ∧
      root.certificate ≠ ca1.certificate ∧
      root.certificate ≠ ca2.certificate ∧
      (∃ partsRoot,
        root.issue_cert_parts [.str "example.com"] none none none none none .ECDSA e4 =
          .ok partsRoot ∧ partsRoot.chain_to_ca = [])) := by
  refine ⟨fun parent k pl cert => rfl, fun k pl cert => rfl,
    _, _, _, _, rfl, rfl, rfl, rfl, rfl, ?_, ?_, _, rfl, rfl⟩
  · intro h
    exact absurd (congrArg (fun c => c.extensions.length) h : (3 : Nat) = 4) (by decide)
  · intro h
    exact absurd (congrArg (fun c => c.extensions.length) h : (3 : Nat) = 4) (by decide)

/-- Witness for C1: the concrete three-level hierarchy, plus the byte-level
fact that the root's PEM is not among the concrete chain entries. -/
theorem chain_collection_witness :
    (∃ root ca1 ca2 parts,
      CA.init none 9 none none .ECDSA entA = .ok root ∧
      root.create_child_ca .ECDSA entB = .ok ca1 ∧
      ca1.create_child_ca .ECDSA entC = .ok ca2 ∧
      ca2.issue_cert_parts [.str "example.com"] none none none none none .ECDSA entD =
        .ok parts ∧
      parts.chain_to_ca =
        [cert_public_bytes_pem ca2.certificate, cert_public_bytes_pem ca1.certificate] ∧
      root.certificate ≠ ca1.certificate ∧
      root.certificate ≠ ca2.certificate ∧
      (∃ partsRoot,
        root.issue_cert_parts [.str "example.com"] none none none none none .ECDSA entD =
          .ok partsRoot ∧ partsRoot.chain_to_ca = [])) ∧
    cert_public_bytes_pem rootCA.certificate ∉
      (exLeafParts (childCA2.issue_cert_parts [.str "example.com"] none none none none
        none .ECDSA entD)).chain_to_ca :=
  ⟨(chain_collection entA entB entC entD).2.2, by decide⟩


/-- C6: for every leaf certificate produced by `issue_cert`, the precomputed
`private_key_and_cert_chain_pem` bundle equals byte-for-byte the
concatenation of the private-key PEM, the leaf certificate PEM, and each
chain entry in chain order (`LeafCert.__init__` concatenates exactly its
three arguments). -/
theorem bundle_concatenation :
    (∀ (k c : List Nat) (ch : List (List Nat)),
      (LeafCert.init k c ch).private_key_and_cert_chain_pem =
        Blob.mk (k ++ c ++ ch.flatten)) ∧
    (∀ (ca : CA) (ids : List PyValue) (cn org ou : Option String)
        (nb na : Option PyDatetime) (kt : KeyType) (ent : Entropy) (l : LeafCert),
      ca.issue_cert ids cn org ou nb na kt ent = .ok l →
      l.private_key_and_cert_chain_pem.bytes =
        l.private_key_pem.bytes ++ (l.cert_chain_pems.map Blob.bytes).flatten) := by
  constructor
  · intro k c ch
    rfl
  · intro ca ids cn org ou nb na kt ent l h
    rw [CA.issue_cert] at h
    cases hp : ca.issue_cert_parts ids cn org ou nb na kt ent with
    | error e =>
      rw [hp] at h
      exact Except.noConfusion h
    | ok parts =>
      rw [hp] at h
      injection h with h
      subst h
      simp only [LeafCert.init, Blob.bytes, List.map_cons, List.map_map, List.flatten_cons,
        show Blob.bytes ∘ Blob.mk = id from rfl, List.map_id, List.append_assoc, List.singleton_append]

/-- Witness for C6: the concrete leaf issued from the depth-3 hierarchy. -/
theorem bundle_concatenation_witness :
    leafCert0.private_key_and_cert_chain_pem.bytes =
      leafCert0.private_key_pem.bytes ++ (leafCert0.cert_chain_pems.map Blob.bytes).flatten :=
  bundle_concatenation.2 childCA2 [.str "example.com"] none none none none none .ECDSA entD
    leafCert0 (by decide)

/-- C9: with an empty identities list but a common name supplied,
`issue_cert` still succeeds, and the leaf certificate carries a
Subject-Alternative-Name extension, marked critical, holding zero entries —
the SAN extension is added unconditionally. -/
theorem san_added_unconditionally (ca : CA) (cn : String) (org ou : Option String)
    (nb na : Option PyDatetime) (kt : KeyType) (ent : Entropy) (sk : PublicKey)
    (hski : ca.certificate.get_subject_key_identifier = some sk) :
    ∃ parts, ca.issue_cert_parts [] (some cn) org ou nb na kt ent = .ok parts ∧
      parts.cert.get_subject_alternative_name = some ([], true) := by
  rw [CA.issue_cert_parts, if_neg (by simp)]
  simp only [hski]
  exact ⟨_, rfl, rfl⟩

/-- Witness for C9 at the concrete root CA. -/
theorem san_added_unconditionally_witness :
    ∃ parts, rootCA.issue_cert_parts [] (some "example.org") none none none none .ECDSA entD =
      .ok parts ∧ parts.cert.get_subject_alternative_name = some ([], true) :=
  san_added_unconditionally rootCA "example.org" none none none none .ECDSA entD
    (PublicKey.mk .ECDSA 0) (by decide)

/-- C7: `CA.from_pem` returns a CA with no parent reference and stored path
length equal to the constructor's declared default 9, whatever the imported
certificate contains (in particular whatever its Basic-Constraints path
length encodes), so subsequent `create_child_ca` enforcement uses that
declared default. -/
theorem from_pem_uses_declared_default (cert : Certificate) (key : PrivateKey)
    (ent : Entropy) :
    ∃ ca, CA.from_pem cert key ent = .ok ca ∧ ca.parent_cert = none ∧
      ca.path_length = 9 ∧ ca.certificate = cert ∧ ca.private_key = key ∧
      (∀ (kt : KeyType) (e2 : Entropy) (sk : PublicKey),
        cert.get_subject_key_identifier = some sk →
        ∃ child, ca.create_child_ca kt e2 = .ok child ∧ child.path_length = 8) := by
  cases h0 : CA.init none 9 none none KeyType.ECDSA ent with
  | error e =>
    rw [CA.init_none_eq 9 none none KeyType.ECDSA ent (by decide)] at h0
    exact Except.noConfusion h0
  | ok ca0 =>
    have hpl : ca0.path_length = 9 := by
      rw [CA.init_none_eq 9 none none KeyType.ECDSA ent (by decide)] at h0
      injection h0 with h0
      subst h0
      rfl
    refine ⟨CA.mk none key ca0.path_length cert, ?_, rfl, hpl, rfl, rfl, ?_⟩
    · rw [CA.from_pem, h0]
    · intro kt e2 sk hski
      have hne : ¬ (CA.mk none key ca0.path_length cert).path_length = 0 := by
        show ¬ ca0.path_length = 0
        rw [hpl]
        decide
      have hpl2 : ¬ (CA.mk none key ca0.path_length cert).path_length - 1 < 0 := by
        show ¬ ca0.path_length - 1 < 0
        omega
      rw [CA.create_child_ca, if_neg hne,
        CA.init_parent_eq (CA.mk none key ca0.path_length cert) _ none none kt e2 sk hski
          hpl2]
      refine ⟨_, rfl, ?_⟩
      show ca0.path_length - 1 = 8
      rw [hpl]
      decide

/-- Witness for C7: importing the depth-2 intermediate's certificate (whose
Basic-Constraints path length is 7) still yields a stored path length of 9,
and its child gets 8. -/
theorem from_pem_uses_declared_default_witness :
    ∃ ca, CA.from_pem childCA2.certificate (PrivateKey.mk .ECDSA 2) entD = .ok ca ∧
      ca.parent_cert = none ∧ ca.path_length = 9 ∧
      ∃ child, ca.create_child_ca .ECDSA entA = .ok child ∧ child.path_length = 8 := by
  obtain ⟨ca, h1, h2, h3, _h4, _h5, h6⟩ :=
    from_pem_uses_declared_default childCA2.certificate (PrivateKey.mk .ECDSA 2) entD
  exact ⟨ca, h1, h2, h3, h6 .ECDSA entA (PublicKey.mk .ECDSA 2) (by decide)⟩

/-- The imported certificate used in the C7 witness really encodes a
Basic-Constraints path length different from the stored default. -/
example : childCA2.certificate.extensions.filter
    (fun e =>
      match e.value with
      | .basicConstraints _ _ => true
      | _ => false) =
    [Extension.mk (.basicConstraints true (some 7)) true] := by decide

/-- C8 counterexample: with a supplied empty organization name, the
organization attribute is the library-identifying default, not the supplied
value — `organization_name or default` treats `""` as falsy. -/
theorem name_builder_empty_org_counterexample :
    (_name "unit" (some "") none).attributes =
      [NameAttribute.mk .ORGANIZATION_NAME ("trustme v" ++ trustme_version),
        NameAttribute.mk .ORGANIZATIONAL_UNIT_NAME "unit"] ∧
    (_name "unit" (some "") none).attributes ≠
      [NameAttribute.mk .ORGANIZATION_NAME "",
        NameAttribute.mk .ORGANIZATIONAL_UNIT_NAME "unit"] :=
  ⟨rfl, by decide⟩

/-- C8 (amended): the distinguished-name builder is a pure function; the
organization attribute equals the supplied organization name when a
non-empty one is provided, and otherwise (absent, or empty — which Python
`or` treats as falsy) the library-identifying default; the common-name
attribute is present if and only if a common name is provided; the
attribute order is always Organization, Organizational Unit, then the
optional Common Name. -/
theorem name_builder (unit : String) (org cn : Option String) :
    (∀ o, org = some o → o ≠ "" →
      (_name unit org cn).attributes.take 2 =
        [NameAttribute.mk .ORGANIZATION_NAME o,
          NameAttribute.mk .ORGANIZATIONAL_UNIT_NAME unit]) ∧
    ((org = none ∨ org = some "") →
      (_name unit org cn).attributes.take 2 =
        [NameAttribute.mk .ORGANIZATION_NAME ("trustme v" ++ trustme_version),
          NameAttribute.mk .ORGANIZATIONAL_UNIT_NAME unit]) ∧
    (cn = none →
      (_name unit org cn).attributes =
        [NameAttribute.mk .ORGANIZATION_NAME (pyStrOr org ("trustme v" ++ trustme_version)),
          NameAttribute.mk .ORGANIZATIONAL_UNIT_NAME unit]) ∧
    (∀ c, cn = some c →
      (_name unit org cn).attributes =
        [NameAttribute.mk .ORGANIZATION_NAME (pyStrOr org ("trustme v" ++ trustme_version)),
          NameAttribute.mk .ORGANIZATIONAL_UNIT_NAME unit,
          NameAttribute.mk .COMMON_NAME c]) := by
  refine ⟨?_, ?_, ?_, ?_⟩
  · intro o ho hne
    subst ho
    cases cn <;> simp [_name, pyStrOr, hne]
  · intro h
    rcases h with h | h <;> (subst h; cases cn <;> simp [_name, pyStrOr])
  · intro h
    subst h
    simp [_name]
  · intro c hc
    subst hc
    simp [_name]

/-- Witness for C8 at concrete inputs: a non-empty organization name is used
verbatim, and a provided common name appears as the third attribute. -/
theorem name_builder_witness :
    (_name "u" (some "Acme") (some "host")).attributes =
      [NameAttribute.mk .ORGANIZATION_NAME
          (pyStrOr (some "Acme") ("trustme v" ++ trustme_version)),
        NameAttribute.mk .ORGANIZATIONAL_UNIT_NAME "u",
        NameAttribute.mk .COMMON_NAME "host"] ∧
    (_name "u" (some "Acme") (some "host")).attributes.take 2 =
      [NameAttribute.mk .ORGANIZATION_NAME "Acme",
        NameAttribute.mk .ORGANIZATIONAL_UNIT_NAME "u"] :=
  ⟨(name_builder "u" (some "Acme") (some "host")).2.2.2 "host" rfl,
    (name_builder "u" (some "Acme") (some "host")).1 "Acme" rfl (by decide)⟩
